import Mathlib

/-!
Verification of the multi-line phone console core (src/src/phone_line.py,
src/src/sip_engine.py, src/src/audio_router.py) against its natural-language
specification.  The Python classes are shallowly embedded: each mutating
method becomes a pure function from the old record to the new record (plus a
Bool result where the method returns one); wall-clock reads become an explicit
`now : Nat` argument; writes to the external process stdin become an explicit
`WriteOutcome` argument.
-/

namespace PhoneSystem

/-- The `LineState` enum of phone_line.py.  The value the code names
DISCONNECTED is what the specification calls Disconnecting. -/
inductive LineState where
  | idle
  | dialing
  | ringing
  | connected
  | disconnected
  | error
deriving DecidableEq, Repr

/-- The `valid_transitions` dict literal of `PhoneLine._is_valid_transition`
(phone_line.py lines 138-145). -/
def validTransitions : LineState → List LineState
  | .idle => [.dialing]
  | .dialing => [.ringing, .connected, .disconnected]
  | .ringing => [.connected, .disconnected]
  | .connected => [.disconnected]
  | .disconnected => [.idle]
  | .error => [.idle]

/-- `PhoneLine._is_valid_transition` (phone_line.py lines 116-148): same state
is always allowed, any state may go to ERROR, otherwise the dict decides. -/
def isValidTransition (fromState toState : LineState) : Bool :=
  if fromState = toState then true
  else if toState = .error then true
  else (validTransitions fromState).contains toState

/-- The mutable fields of a `PhoneLine` object (phone_line.py `__init__`,
lines 62-90).  `audio_output` is the AudioOutput channel number.
Timestamps are Nat seconds. -/
structure PhoneLine where
  line_id : Nat
  state : LineState
  audio_output : Nat
  call_id : Option String
  remote_number : Option String
  call_duration : Nat
  call_start_time : Option Nat
deriving DecidableEq, Repr

/-- `PhoneLine.__init__` (phone_line.py lines 62-90): state IDLE, output
channel the given default (0 when unset), no call data. -/
def initLine (line_id : Nat) (default_output : Nat) : PhoneLine :=
  { line_id := line_id
    state := .idle
    audio_output := default_output
    call_id := none
    remote_number := none
    call_duration := 0
    call_start_time := none }

/-- Characters matched by `\s` in a Python regex and stripped by
`str.strip()`, restricted to the ASCII range (the commands and numbers of
this system are single ASCII lines, spec section 6). -/
def pythonWhitespace (c : Char) : Bool :=
  c = ' ' || c = '\t' || c = '\n' || c = '\r' || c = '\x0b' || c = '\x0c'

/-- Python `str.strip()`: drop leading and trailing whitespace. -/
def pyStrip (s : String) : String :=
  String.mk (((s.data.dropWhile pythonWhitespace).reverse.dropWhile pythonWhitespace).reverse)

/-- `PhoneLine.set_state` (phone_line.py lines 92-114): when the new state
differs, an invalid transition is dropped (state unchanged); when equal,
nothing happens. -/
def set_state (l : PhoneLine) (new_state : LineState) : PhoneLine :=
  if l.state ≠ new_state then
    if isValidTransition l.state new_state then
      { l with state := new_state }
    else l
  else l

/-- `PhoneLine.dial` (phone_line.py lines 197-220): only from IDLE, rejects an
empty or all-whitespace number, else records the remote number and moves to
DIALING. -/
def dial (l : PhoneLine) (phone_number : String) : PhoneLine × Bool :=
  if l.state ≠ .idle then (l, false)
  else if phone_number = "" ∨ pyStrip phone_number = "" then (l, false)
  else (set_state { l with remote_number := some phone_number } .dialing, true)

/-- `PhoneLine.call_connected` (phone_line.py lines 222-233): stamps call_id
and call_start_time, then requests the CONNECTED transition. -/
def call_connected (l : PhoneLine) (cid : Option String) (now : Nat) : PhoneLine :=
  set_state { l with call_id := cid, call_start_time := some now } .connected

/-- `PhoneLine.hangup` (phone_line.py lines 235-249): from DIALING, RINGING or
CONNECTED moves to DISCONNECTED, otherwise fails. -/
def hangup (l : PhoneLine) : PhoneLine × Bool :=
  if l.state = .dialing ∨ l.state = .ringing ∨ l.state = .connected then
    (set_state l .disconnected, true)
  else (l, false)

/-- First step of `PhoneLine.reset` (phone_line.py lines 254-256): an active
call state first transitions through DISCONNECTED. -/
def reset_phase1 (l : PhoneLine) : PhoneLine :=
  if l.state = .dialing ∨ l.state = .ringing ∨ l.state = .connected then
    set_state l .disconnected
  else l

/-- Second step of `PhoneLine.reset` (phone_line.py lines 258-262): finalize
call_duration when a start time exists and the line is now DISCONNECTED. -/
def reset_finalize (l : PhoneLine) (now : Nat) : PhoneLine :=
  match l.call_start_time with
  | some t => if l.state = .disconnected then { l with call_duration := now - t } else l
  | none => l

/-- Third step of `PhoneLine.reset` (phone_line.py lines 264-268): clear the
call data, keeping call_duration. -/
def reset_clear (l : PhoneLine) : PhoneLine :=
  { l with call_id := none, remote_number := none, call_start_time := none }

/-- `PhoneLine.reset` (phone_line.py lines 251-272): the three steps above
followed by the IDLE transition. -/
def reset (l : PhoneLine) (now : Nat) : PhoneLine :=
  set_state (reset_clear (reset_finalize (reset_phase1 l) now)) .idle

/-- The mutable supervisor fields of a `BaresipProcess` (sip_engine.py lines
25-33) that the claims are about: the running flag, the tracked correlation
id (`current_call_id`), and the owned `PhoneLine`. -/
structure BaresipProcess where
  running : Bool
  current_call_id : Option String
  phone_line : PhoneLine
deriving DecidableEq, Repr

/-- The event vocabulary of `BaresipProcess._monitor_output` (sip_engine.py
lines 134-177): each output line is classified by case-insensitive substring
match into one of these kinds. -/
inductive BaresipEvent where
  | registerOk
  | registerFailed
  | callConnecting
  | callRinging
  | callEstablished
  | callClosed
  | hangupOk
  | unrecognized
deriving DecidableEq, Repr

/-- The per-event-line body of `BaresipProcess._monitor_output` (sip_engine.py
lines 134-177).  Registration events only log.  A connecting event requests
DIALING, a ringing event requests RINGING.  An established event connects the
line only from DIALING or RINGING.  A closed or hangup-confirmed event resets
the line only while a correlation id is tracked, and clears it. -/
def handle_event (s : BaresipProcess) (e : BaresipEvent) (now : Nat) : BaresipProcess :=
  match e with
  | .callConnecting => { s with phone_line := set_state s.phone_line .dialing }
  | .callRinging => { s with phone_line := set_state s.phone_line .ringing }
  | .callEstablished =>
      if s.phone_line.state = .dialing ∨ s.phone_line.state = .ringing then
        { s with phone_line := call_connected s.phone_line s.current_call_id now }
      else s
  | .callClosed | .hangupOk =>
      if s.current_call_id.isSome then
        { s with phone_line := reset s.phone_line now, current_call_id := none }
      else s
  | _ => s

/-- The `finally` block of `BaresipProcess._monitor_output` (sip_engine.py
lines 184-191): when the output stream ends while the supervisor is still
marked running and the process has exited (`poll()` returns an exit code,
modelled by `process_exited`), mark not running and reset the line. -/
def handle_stream_end (s : BaresipProcess) (process_exited : Bool) (now : Nat) :
    BaresipProcess :=
  if s.running && process_exited then
    { s with running := false, phone_line := reset s.phone_line now }
  else s

/-- Outcome of the `stdin.write`/`flush` pair in `BaresipProcess.make_call`
(sip_engine.py lines 219-220): success, a BrokenPipeError/OSError, or some
other exception. -/
inductive WriteOutcome where
  | ok
  | brokenPipe
  | otherFailure
deriving DecidableEq, Repr

/-- One character of the allow-list regex `[0-9+\-*#\s]` in
`BaresipProcess.make_call` (sip_engine.py line 204). -/
def numberCharAllowed (c : Char) : Bool :=
  c.isDigit || c = '+' || c = '-' || c = '*' || c = '#' || pythonWhitespace c

/-- The full-string test performed by `re.match` against the anchored pattern
of sip_engine.py line 204: nonempty and every character from the allow-list. -/
def numberFormatOk (s : String) : Bool :=
  (s != "") && s.data.all numberCharAllowed

/-- `phone_number.replace(' ', '')` of sip_engine.py line 209: drop every
space character (only U+0020, not other whitespace). -/
def removeSpaces (s : String) : String :=
  String.mk (s.data.filter (fun c => c ≠ ' '))

/-- `BaresipProcess.make_call` (sip_engine.py lines 193-239).  `stdin_open`
models `self.process`/`self.process.stdin` being present and not closed;
`write_outcome` models the fate of the stdin write.  Checks run in source
order: running, stdin, allow-list regex, emptiness after space removal; only
after a successful write are the correlation id set and the line dialed, and
a dial rejection still returns failure.  A broken pipe marks the supervisor
not running and resets the line; any other write failure only resets. -/
def bp_make_call (s : BaresipProcess) (stdin_open : Bool) (phone_number : String)
    (write_outcome : WriteOutcome) (now : Nat) : BaresipProcess × Bool :=
  if !s.running then (s, false)
  else if !stdin_open then (s, false)
  else if !numberFormatOk phone_number then (s, false)
  else if removeSpaces phone_number = "" then (s, false)
  else
    match write_outcome with
    | .ok =>
        ({ s with
            current_call_id := some (removeSpaces phone_number)
            phone_line := (dial s.phone_line (removeSpaces phone_number)).1 },
          (dial s.phone_line (removeSpaces phone_number)).2)
    | .brokenPipe =>
        ({ s with running := false, phone_line := reset s.phone_line now }, false)
    | .otherFailure =>
        ({ s with phone_line := reset s.phone_line now }, false)

/-- The AudioRouter fields used by `update_routing` (audio_router.py lines
88-106): the configured number of outputs, the running flag, and the routing
map (a dict from line id to channel, modelled as a partial map). -/
structure AudioRouter where
  num_outputs : Nat
  is_running : Bool
  routing_map : Nat → Option Nat

/-- A single-key dict store, `self.routing_map[line_id] = channel`. -/
def mapInsert (m : Nat → Option Nat) (k v : Nat) : Nat → Option Nat :=
  fun j => if j = k then some v else m j

/-- `AudioRouter.update_routing` (audio_router.py lines 236-265): rejects when
not running, when the line id is outside 1..8, or when the channel exceeds
num_outputs (channels are Nat, so the lower bound 0 is implicit); otherwise
stores the channel for that line and succeeds. -/
def update_routing (r : AudioRouter) (line_id channel : Nat) : AudioRouter × Bool :=
  if r.is_running = false then (r, false)
  else if ¬ (1 ≤ line_id ∧ line_id ≤ 8) then (r, false)
  else if ¬ (channel ≤ r.num_outputs) then (r, false)
  else ({ r with routing_map := mapInsert r.routing_map line_id channel }, true)

/-- `AudioRouter.get_routing` (audio_router.py lines 267-277). -/
def get_routing (r : AudioRouter) (line_id : Nat) : Option Nat :=
  r.routing_map line_id

/-- One operation of the PhoneLine transition API, for reasoning about
operation sequences (claim C2): dial, the supervisor-driven RINGING mark, the
supervisor-driven connect, hangup, reset. -/
inductive LineOp where
  | opDial (phone_number : String)
  | opMarkRinging
  | opCallConnected (cid : Option String) (t : Nat)
  | opHangup
  | opReset (t : Nat)
deriving DecidableEq, Repr

/-- Apply one transition-API operation to a line, discarding Bool results. -/
def applyOp (l : PhoneLine) : LineOp → PhoneLine
  | .opDial n => (dial l n).1
  | .opMarkRinging => set_state l .ringing
  | .opCallConnected cid t => call_connected l cid t
  | .opHangup => (hangup l).1
  | .opReset t => reset l t

/-- Run a sequence of transition-API operations left to right. -/
def runOps (l : PhoneLine) : List LineOp → PhoneLine
  | [] => l
  | op :: ops => runOps (applyOp l op) ops

/-- The states the specification calls the active-call states:
Dialing, Ringing, Connected, Disconnecting. -/
def isActiveCallState (st : LineState) : Bool :=
  st == .dialing || st == .ringing || st == .connected || st == .disconnected

/-- Python truthiness of `self.remote_number`: a string that is set and
nonempty. -/
def remoteNonEmpty (l : PhoneLine) : Bool :=
  match l.remote_number with
  | some s => s != ""
  | none => false

/-- The claim C2 invariant: RemoteNumber is nonempty exactly in the
active-call states; CallStartedAt is set when Connected and may persist only
into Disconnecting. -/
def callFieldsInvariant (l : PhoneLine) : Prop :=
  remoteNonEmpty l = isActiveCallState l.state
  ∧ (l.state = .connected → l.call_start_time ≠ none)
  ∧ (l.call_start_time ≠ none → l.state = .connected ∨ l.state = .disconnected)

instance (l : PhoneLine) : Decidable (callFieldsInvariant l) := by
  unfold callFieldsInvariant
  infer_instance

/-- Guard under which the supervisor actually invokes `call_connected`
(sip_engine.py line 155): only while the line is DIALING or RINGING.  All
other operations are unguarded. -/
def connectGuardOk (l : PhoneLine) : LineOp → Bool
  | .opCallConnected _ _ => l.state == .dialing || l.state == .ringing
  | _ => true

/-- A sequence of operations in which every `call_connected` happens while
the line is Dialing or Ringing, as the supervisor guarantees. -/
def guardedSeq : PhoneLine → List LineOp → Bool
  | _, [] => true
  | l, op :: ops => connectGuardOk l op && guardedSeq (applyOp l op) ops

/-- Modelled from the spec: the explicit edge list of section 4.1, Idle to
Dialing; Dialing to Ringing, Connected, Disconnecting; Ringing to Connected,
Disconnecting; Connected to Disconnecting; Disconnecting to Idle; Error to
Idle.  On top of these the spec separately allows same-state and
any-state-to-Error.  This is the comparison target for isValidTransition. -/
def specEdge : LineState → LineState → Bool
  | .idle, .dialing => true
  | .dialing, .ringing => true
  | .dialing, .connected => true
  | .dialing, .disconnected => true
  | .ringing, .connected => true
  | .ringing, .disconnected => true
  | .connected, .disconnected => true
  | .disconnected, .idle => true
  | .error, .idle => true
  | _, _ => false

/-- Modelled from the spec wording for claim C7, read as generously as
possible: a number consisting solely of digits, the symbols +, -, *, #, and
space characters (the claim says leading symbols and internal spaces; this
predicate does not even enforce the positions, only the character set). -/
def claimedNumberPattern (s : String) : Bool :=
  s.data.all (fun c => c.isDigit || c = '+' || c = '-' || c = '*' || c = '#' || c = ' ')

/-- A concrete supervisor state for evaluating the theorems: a fresh line,
process running, no call tracked. -/
def sampleIdle : BaresipProcess :=
  { running := true
    current_call_id := none
    phone_line := initLine 1 0 }

/-- A concrete supervisor state: line 1 Dialing with its number recorded and
a correlation id tracked. -/
def sampleDialing : BaresipProcess :=
  { running := true
    current_call_id := some "5551234"
    phone_line := { initLine 1 0 with state := .dialing, remote_number := some "5551234" } }

/-- A concrete supervisor state: line 1 Connected from an earlier call whose
correlation id is no longer tracked. -/
def sampleBusy : BaresipProcess :=
  { running := true
    current_call_id := none
    phone_line := { initLine 1 0 with
      state := .connected
      remote_number := some "777"
      call_id := some "777"
      call_start_time := some 2 } }

/-- A concrete router that was never started. -/
def stoppedRouter : AudioRouter :=
  { num_outputs := 8, is_running := false, routing_map := fun _ => none }

/-- A concrete running router with line 1 assigned to channel 2. -/
def runningRouter : AudioRouter :=
  { num_outputs := 8, is_running := true
    routing_map := fun j => if j = 1 then some 2 else none }

/-! Helper lemmas about set_state and reset. -/

lemma set_state_same (l : PhoneLine) : set_state l l.state = l := by
  simp [set_state]

lemma set_state_invalid (l : PhoneLine) (t : LineState)
    (h : isValidTransition l.state t = false) : set_state l t = l := by
  unfold set_state
  by_cases he : l.state = t
  · simp [he]
  · simp [he, h]

lemma set_state_valid (l : PhoneLine) (t : LineState)
    (h : isValidTransition l.state t = true) :
    set_state l t = { l with state := t } := by
  obtain ⟨i, st, ao, ci, rn, cd, cst⟩ := l
  unfold set_state
  by_cases he : st = t <;> simp_all

lemma set_state_fields (l : PhoneLine) (t : LineState) :
    (set_state l t).line_id = l.line_id
    ∧ (set_state l t).audio_output = l.audio_output
    ∧ (set_state l t).call_id = l.call_id
    ∧ (set_state l t).remote_number = l.remote_number
    ∧ (set_state l t).call_duration = l.call_duration
    ∧ (set_state l t).call_start_time = l.call_start_time := by
  unfold set_state
  split
  · split <;> simp
  · simp

lemma dial_success (l : PhoneLine) (n : String) (h1 : l.state = .idle)
    (h2 : n ≠ "") (h3 : pyStrip n ≠ "") :
    dial l n = ({ l with remote_number := some n, state := .dialing }, true) := by
  have hn : ¬ (n = "" ∨ pyStrip n = "") := by
    rintro (rfl | h4)
    · exact h2 rfl
    · exact h3 h4
  rw [dial, if_neg (by simp [h1]), if_neg hn,
    set_state_valid _ _ (by show isValidTransition l.state .dialing = true; rw [h1]; decide)]

lemma dial_fail_not_idle (l : PhoneLine) (n : String) (h : l.state ≠ .idle) :
    dial l n = (l, false) := by
  rw [dial, if_pos h]

lemma dial_fail_blank (l : PhoneLine) (n : String) (h : pyStrip n = "") :
    dial l n = (l, false) := by
  by_cases h1 : l.state = .idle
  · rw [dial, if_neg (by simp [h1]), if_pos (Or.inr h)]
  · exact dial_fail_not_idle l n h1

lemma dial_snd_true (l : PhoneLine) (n : String) (h : (dial l n).2 = true) :
    l.state = .idle ∧ n ≠ "" ∧ pyStrip n ≠ "" := by
  by_cases h1 : l.state = .idle
  · by_cases h2 : n = "" ∨ pyStrip n = ""
    · rw [dial, if_neg (by simp [h1]), if_pos h2] at h
      simp at h
    · push_neg at h2
      exact ⟨h1, h2.1, h2.2⟩
  · rw [dial_fail_not_idle _ _ h1] at h
    simp at h

lemma dial_state_after_success (l : PhoneLine) (n : String) (h : (dial l n).2 = true) :
    (dial l n).1.state = .dialing := by
  obtain ⟨h1, h2, h3⟩ := dial_snd_true l n h
  rw [dial_success l n h1 h2 h3]

lemma reset_state_idle (l : PhoneLine) (now : Nat) : (reset l now).state = .idle := by
  obtain ⟨i, st, ao, ci, rn, cd, cst⟩ := l
  cases st <;> cases cst <;>
    simp [reset, reset_phase1, reset_finalize, reset_clear, set_state,
      isValidTransition, validTransitions]

lemma reset_cleared_fields (l : PhoneLine) (now : Nat) :
    (reset l now).call_id = none
    ∧ (reset l now).remote_number = none
    ∧ (reset l now).call_start_time = none := by
  unfold reset
  obtain ⟨h1, h2, h3, h4, h5, h6⟩ :=
    set_state_fields (reset_clear (reset_finalize (reset_phase1 l) now)) .idle
  rw [h3, h4, h6]
  simp [reset_clear]

lemma reset_phase1_active (l : PhoneLine)
    (h : l.state = .dialing ∨ l.state = .ringing ∨ l.state = .connected) :
    reset_phase1 l = { l with state := .disconnected } := by
  rw [reset_phase1, if_pos h, set_state_valid]
  rcases h with h | h | h <;> rw [h] <;> decide

lemma reset_frame (l : PhoneLine) (now : Nat) :
    (reset l now).line_id = l.line_id ∧ (reset l now).audio_output = l.audio_output := by
  obtain ⟨i, st, ao, ci, rn, cd, cst⟩ := l
  cases st <;> cases cst <;>
    simp [reset, reset_phase1, reset_finalize, reset_clear, set_state,
      isValidTransition, validTransitions]

lemma reset_of_cleared (l : PhoneLine) (now : Nat) (h1 : l.state = .idle)
    (h2 : l.call_id = none) (h3 : l.remote_number = none) (h4 : l.call_start_time = none) :
    reset l now = l := by
  obtain ⟨i, st, ao, ci, rn, cd, cst⟩ := l
  simp only at h1 h2 h3 h4
  subst h1
  subst h2
  subst h3
  subst h4
  simp [reset, reset_phase1, reset_finalize, reset_clear, set_state]

lemma reset_idem (l : PhoneLine) (n1 n2 : Nat) :
    reset (reset l n1) n2 = reset l n1 := by
  obtain ⟨hc, hr, hs⟩ := reset_cleared_fields l n1
  exact reset_of_cleared _ _ (reset_state_idle l n1) hc hr hs

lemma reset_phase1_fields (l : PhoneLine) :
    (reset_phase1 l).call_start_time = l.call_start_time
    ∧ (reset_phase1 l).call_duration = l.call_duration := by
  unfold reset_phase1
  split
  · obtain ⟨_, _, _, _, h5, h6⟩ := set_state_fields l .disconnected
    exact ⟨h6, h5⟩
  · exact ⟨rfl, rfl⟩

lemma reset_duration_no_call (l : PhoneLine) (now : Nat) (h : l.call_start_time = none) :
    (reset l now).call_duration = l.call_duration := by
  unfold reset
  obtain ⟨_, _, _, _, h5, _⟩ :=
    set_state_fields (reset_clear (reset_finalize (reset_phase1 l) now)) .idle
  rw [h5]
  have hp := reset_phase1_fields l
  simp [reset_clear, reset_finalize, hp.1, h, hp.2]

lemma reset_duration_finalized (l : PhoneLine) (now t : Nat)
    (h : l.call_start_time = some t)
    (hs : l.state = .dialing ∨ l.state = .ringing ∨ l.state = .connected
      ∨ l.state = .disconnected) :
    (reset l now).call_duration = now - t := by
  obtain ⟨i, st, ao, ci, rn, cd, cst⟩ := l
  simp only at h hs
  subst h
  cases st <;> simp_all [reset, reset_phase1, reset_finalize, reset_clear, set_state,
    isValidTransition, validTransitions]

lemma inv_reset (l : PhoneLine) (t : Nat) : callFieldsInvariant (reset l t) := by
  obtain ⟨hc, hr, hs⟩ := reset_cleared_fields l t
  refine ⟨?_, ?_, ?_⟩
  · rw [reset_state_idle]
    simp [remoteNonEmpty, hr, isActiveCallState]
  · intro h
    rw [reset_state_idle] at h
    simp at h
  · intro h
    exact absurd hs h

lemma inv_markRinging (l : PhoneLine) (hinv : callFieldsInvariant l) :
    callFieldsInvariant (set_state l .ringing) := by
  obtain ⟨h1, h2, h3⟩ := hinv
  obtain ⟨i, st, ao, ci, rn, cd, cst⟩ := l
  simp only at h1 h2 h3
  cases st <;> cases rn <;> cases cst <;>
    simp_all [set_state, isValidTransition, validTransitions, callFieldsInvariant,
      isActiveCallState, remoteNonEmpty]

lemma inv_dial (l : PhoneLine) (n : String) (hinv : callFieldsInvariant l) :
    callFieldsInvariant (dial l n).1 := by
  obtain ⟨h1, h2, h3⟩ := hinv
  by_cases hst : l.state = .idle
  · by_cases hn : n = "" ∨ pyStrip n = ""
    · rw [dial, if_neg (by simp [hst]), if_pos hn]
      exact ⟨h1, h2, h3⟩
    · push_neg at hn
      rw [dial_success l n hst hn.1 hn.2]
      refine ⟨?_, ?_, ?_⟩
      · simp [remoteNonEmpty, isActiveCallState, hn.1]
      · intro h
        simp at h
      · intro h
        simp only at h
        rcases h3 h with hc | hc <;> rw [hst] at hc <;> simp at hc
  · rw [dial_fail_not_idle l n hst]
    exact ⟨h1, h2, h3⟩

lemma inv_callConnected (l : PhoneLine) (cid : Option String) (t : Nat)
    (hinv : callFieldsInvariant l)
    (hg : l.state = .dialing ∨ l.state = .ringing) :
    callFieldsInvariant (call_connected l cid t) := by
  obtain ⟨h1, h2, h3⟩ := hinv
  have hv : call_connected l cid t
      = { l with call_id := cid, call_start_time := some t, state := .connected } := by
    rw [call_connected, set_state_valid]
    show isValidTransition l.state .connected = true
    rcases hg with h | h <;> rw [h] <;> decide
  rw [hv]
  refine ⟨?_, ?_, ?_⟩
  · have ha : isActiveCallState l.state = true := by
      rcases hg with h | h <;> rw [h] <;> decide
    show remoteNonEmpty l = isActiveCallState .connected
    rw [h1, ha]
    decide
  · intro _
    simp
  · intro _
    left
    rfl

lemma inv_hangup (l : PhoneLine) (hinv : callFieldsInvariant l) :
    callFieldsInvariant (hangup l).1 := by
  obtain ⟨h1, h2, h3⟩ := hinv
  by_cases h : l.state = .dialing ∨ l.state = .ringing ∨ l.state = .connected
  · rw [hangup, if_pos h]
    show callFieldsInvariant (set_state l .disconnected)
    rw [set_state_valid _ _ (by rcases h with h | h | h <;> rw [h] <;> decide)]
    refine ⟨?_, ?_, ?_⟩
    · show remoteNonEmpty l = isActiveCallState .disconnected
      rw [h1]
      rcases h with h | h | h <;> rw [h] <;> decide
    · intro hc
      simp at hc
    · intro hc
      right
      rfl
  · rw [hangup, if_neg h]
    exact ⟨h1, h2, h3⟩

lemma invariant_step (l : PhoneLine) (op : LineOp) (hinv : callFieldsInvariant l)
    (hg : connectGuardOk l op = true) : callFieldsInvariant (applyOp l op) := by
  cases op with
  | opDial n => exact inv_dial l n hinv
  | opMarkRinging => exact inv_markRinging l hinv
  | opCallConnected cid t =>
      refine inv_callConnected l cid t hinv ?_
      simpa [connectGuardOk] using hg
  | opHangup => exact inv_hangup l hinv
  | opReset t => exact inv_reset l t

lemma invariant_run (l : PhoneLine) (ops : List LineOp) (hinv : callFieldsInvariant l)
    (hg : guardedSeq l ops = true) : callFieldsInvariant (runOps l ops) := by
  induction ops generalizing l with
  | nil => exact hinv
  | cons op ops ih =>
      rw [guardedSeq, Bool.and_eq_true] at hg
      exact ih (applyOp l op) (invariant_step l op hinv hg.1) hg.2

lemma inv_init (i d : Nat) : callFieldsInvariant (initLine i d) := by
  refine ⟨?_, ?_, ?_⟩ <;> simp [initLine, remoteNonEmpty, isActiveCallState]

lemma call_connected_active (l : PhoneLine) (cid : Option String) (t : Nat)
    (h : l.state = .dialing ∨ l.state = .ringing) :
    (call_connected l cid t).state = .connected := by
  have hv : isValidTransition
      ({ l with call_id := cid, call_start_time := some t } : PhoneLine).state .connected
      = true := by
    show isValidTransition l.state .connected = true
    rcases h with h | h <;> rw [h] <;> decide
  rw [call_connected, set_state_valid _ _ hv]

lemma bp_reject_invalid (s : BaresipProcess) (so : Bool) (n : String) (w : WriteOutcome)
    (now : Nat) (h : numberFormatOk n = false ∨ removeSpaces n = "") :
    bp_make_call s so n w now = (s, false) := by
  rw [bp_make_call.eq_def]
  split
  · rfl
  split
  · rfl
  split
  · rfl
  split
  · rfl
  · rename_i h1 h2 h3 h4
    rcases h with h | h
    · rw [h] at h3
      simp at h3
    · exact absurd h h4

lemma bp_not_ok (s : BaresipProcess) (so : Bool) (n : String) (w : WriteOutcome)
    (now : Nat) (hw : w ≠ .ok) :
    (bp_make_call s so n w now).2 = false
    ∧ (bp_make_call s so n w now).1.current_call_id = s.current_call_id := by
  rw [bp_make_call.eq_def]
  split
  · exact ⟨rfl, rfl⟩
  split
  · exact ⟨rfl, rfl⟩
  split
  · exact ⟨rfl, rfl⟩
  split
  · exact ⟨rfl, rfl⟩
  · cases w with
    | ok => exact absurd rfl hw
    | brokenPipe => exact ⟨rfl, rfl⟩
    | otherFailure => exact ⟨rfl, rfl⟩

lemma bp_snd_true (s : BaresipProcess) (so : Bool) (n : String) (w : WriteOutcome)
    (now : Nat) (h : (bp_make_call s so n w now).2 = true) :
    s.running = true ∧ so = true ∧ numberFormatOk n = true ∧ removeSpaces n ≠ ""
    ∧ w = .ok ∧ (dial s.phone_line (removeSpaces n)).2 = true := by
  rw [bp_make_call.eq_def] at h
  split at h
  · simp at h
  split at h
  · simp at h
  split at h
  · simp at h
  split at h
  · simp at h
  · rename_i h1 h2 h3 h4
    cases w with
    | ok =>
        refine ⟨?_, ?_, ?_, h4, rfl, h⟩
        · simpa using h1
        · simpa using h2
        · simpa using h3
    | brokenPipe => simp at h
    | otherFailure => simp at h

lemma bp_rejected_dial (s : BaresipProcess) (n : String) (now : Nat)
    (hr : s.running = true) (hst : s.phone_line.state ≠ .idle)
    (hf : numberFormatOk n = true) (hs : removeSpaces n ≠ "") :
    bp_make_call s true n .ok now
      = ({ s with current_call_id := some (removeSpaces n) }, false) := by
  rw [bp_make_call.eq_def, if_neg (by simp [hr]), if_neg (by simp), if_neg (by simp [hf]),
    if_neg hs, dial_fail_not_idle _ _ hst]

lemma bp_success (s : BaresipProcess) (so : Bool) (n : String) (now : Nat)
    (h : (bp_make_call s so n .ok now).2 = true) :
    (bp_make_call s so n .ok now).1.phone_line.state = .dialing
    ∧ (bp_make_call s so n .ok now).1.current_call_id = some (removeSpaces n) := by
  obtain ⟨h1, h2, h3, h4, _, h6⟩ := bp_snd_true s so n .ok now h
  subst h2
  rw [bp_make_call.eq_def, if_neg (by simp [h1]), if_neg (by simp), if_neg (by simp [h3]), if_neg h4]
  exact ⟨dial_state_after_success _ _ h6, rfl⟩


/-- C1: the transition-legality predicate accepts exactly the spec edge set —
legal iff the target equals the source, the target is Error, or the pair is a
listed edge — and set_state leaves the state unchanged on any illegal pair
while a same-state request is a successful no-op. -/
theorem c1_transition_legality :
    (∀ a b : LineState,
      isValidTransition a b = true ↔ (b = a ∨ b = .error ∨ specEdge a b = true))
    ∧ (∀ (l : PhoneLine) (t : LineState),
        isValidTransition l.state t = false → set_state l t = l)
    ∧ (∀ l : PhoneLine, set_state l l.state = l) := by
  refine ⟨?_, set_state_invalid, set_state_same⟩
  intro a b
  cases a <;> cases b <;> decide

/-- C1 witness: Idle to Connected is illegal and the request leaves a fresh
line unchanged, evaluated concretely. -/
theorem c1_transition_legality_witness :
    isValidTransition (initLine 1 0).state LineState.connected = false
    ∧ set_state (initLine 1 0) LineState.connected = initLine 1 0 :=
  ⟨by decide, c1_transition_legality.2.1 (initLine 1 0) LineState.connected (by decide)⟩

/-- C2 counterexample: the claim quantifies over every transition-API
sequence, but call_connected stamps CallStartedAt before requesting the
CONNECTED transition, so invoking it on an Idle line (where the transition is
rejected) leaves CallStartedAt set while the state stays Idle, violating the
invariant at the very first step. -/
theorem c2_counterexample :
    ¬ callFieldsInvariant (runOps (initLine 1 0) [LineOp.opCallConnected (some "x") 5]) := by
  decide

/-- C2 amended: along every operation sequence in which call_connected is
invoked only while the line is Dialing or Ringing — exactly the guard the
supervisor enforces — every line reachable from the initial state satisfies
the invariant: RemoteNumber nonempty exactly in Dialing, Ringing, Connected,
Disconnecting; CallStartedAt set when Connected, persisting at most into
Disconnecting. -/
theorem c2_call_fields_invariant :
    (∀ i d : Nat, callFieldsInvariant (initLine i d))
    ∧ ∀ (l : PhoneLine) (ops : List LineOp), callFieldsInvariant l →
        guardedSeq l ops = true → callFieldsInvariant (runOps l ops) :=
  ⟨inv_init, invariant_run⟩

/-- C2 witness: the invariant holds after a concrete guarded call round trip
dial, ringing, connect, hangup, reset. -/
theorem c2_call_fields_invariant_witness :
    callFieldsInvariant (runOps (initLine 1 0)
      [LineOp.opDial "5551234", LineOp.opMarkRinging,
       LineOp.opCallConnected (some "5551234") 3, LineOp.opHangup, LineOp.opReset 9]) :=
  c2_call_fields_invariant.2 (initLine 1 0) _ (c2_call_fields_invariant.1 1 0) (by decide)

/-- C3: reader-task dispatch.  An established event connects the line only
from Dialing or Ringing and otherwise changes nothing; a closed or
hangup-confirmed event resets the line and clears the correlation id only
when one is tracked and otherwise changes nothing; end of stream with the
process exited marks the supervisor not running and resets the line
regardless of its state. -/
theorem c3_reader_dispatch :
    (∀ (s : BaresipProcess) (now : Nat),
      s.phone_line.state = .dialing ∨ s.phone_line.state = .ringing →
      handle_event s .callEstablished now
        = { s with phone_line := call_connected s.phone_line s.current_call_id now }
      ∧ (handle_event s .callEstablished now).phone_line.state = .connected)
    ∧ (∀ (s : BaresipProcess) (now : Nat),
        s.phone_line.state ≠ .dialing → s.phone_line.state ≠ .ringing →
        handle_event s .callEstablished now = s)
    ∧ (∀ (s : BaresipProcess) (e : BaresipEvent) (now : Nat),
        e = .callClosed ∨ e = .hangupOk → s.current_call_id ≠ none →
        handle_event s e now
          = { s with phone_line := reset s.phone_line now, current_call_id := none }
        ∧ (handle_event s e now).phone_line.state = .idle)
    ∧ (∀ (s : BaresipProcess) (e : BaresipEvent) (now : Nat),
        e = .callClosed ∨ e = .hangupOk → s.current_call_id = none →
        handle_event s e now = s)
    ∧ (∀ (s : BaresipProcess) (now : Nat), s.running = true →
        handle_stream_end s true now
          = { s with running := false, phone_line := reset s.phone_line now }) := by
  refine ⟨?_, ?_, ?_, ?_, ?_⟩
  · intro s now h
    have he : handle_event s .callEstablished now
        = { s with phone_line := call_connected s.phone_line s.current_call_id now } := by
      simp only [handle_event]
      rw [if_pos h]
    refine ⟨he, ?_⟩
    rw [he]
    exact call_connected_active s.phone_line s.current_call_id now h
  · intro s now h1 h2
    simp only [handle_event]
    rw [if_neg]
    rintro (h | h)
    · exact h1 h
    · exact h2 h
  · intro s e now he hid
    have hsome : s.current_call_id.isSome = true := Option.ne_none_iff_isSome.mp hid
    have key : handle_event s e now
        = { s with phone_line := reset s.phone_line now, current_call_id := none } := by
      rcases he with rfl | rfl <;>
        · simp only [handle_event]
          rw [if_pos hsome]
    refine ⟨key, ?_⟩
    rw [key]
    exact reset_state_idle s.phone_line now
  · intro s e now he hid
    have hnone : s.current_call_id.isSome = false := by
      rw [hid]
      rfl
    rcases he with rfl | rfl <;>
      · simp only [handle_event]
        rw [if_neg]
        simp [hnone]
  · intro s now h
    rw [handle_stream_end, if_pos]
    simp [h]

/-- C3 witness: on the concrete Dialing supervisor state, established
connects the line and closed resets it clearing the correlation id. -/
theorem c3_reader_dispatch_witness :
    handle_event sampleDialing .callEstablished 4
      = { sampleDialing with
          phone_line := call_connected sampleDialing.phone_line sampleDialing.current_call_id 4 }
    ∧ handle_event sampleDialing .callClosed 9
      = { sampleDialing with
          phone_line := reset sampleDialing.phone_line 9
          current_call_id := none } :=
  ⟨(c3_reader_dispatch.1 sampleDialing 4 (by decide)).1,
   (c3_reader_dispatch.2.2.1 sampleDialing .callClosed 9 (Or.inl rfl) (by decide)).1⟩



/-- C4 counterexample: with the line already Connected (correlation id not
tracked), a validated number and a successful write, make_call returns
failure because the line rejects the dial — but the correlation id has been
set to the attempted number and is not cleared, a half-applied supervisor
state for a call that was never dialed. -/
theorem c4_counterexample :
    (bp_make_call sampleBusy true "123" .ok 0).2 = false
    ∧ sampleBusy.current_call_id = none
    ∧ (bp_make_call sampleBusy true "123" .ok 0).1.current_call_id = some "123" := by
  decide

/-- C4 amended: the correlation id is set and dial invoked only after a
successful write — a failed write returns failure with the correlation id
unchanged, and a pre-write validation failure leaves the supervisor entirely
unchanged; on success the line is Dialing and the id holds the stripped
number; but when the line rejects the dial after a successful write,
make_call returns failure with the line unchanged while the correlation id
remains set to the attempted number. -/
theorem c4_make_call_ordering :
    (∀ (s : BaresipProcess) (so : Bool) (n : String) (w : WriteOutcome) (now : Nat),
      w ≠ .ok →
      (bp_make_call s so n w now).2 = false
      ∧ (bp_make_call s so n w now).1.current_call_id = s.current_call_id)
    ∧ (∀ (s : BaresipProcess) (so : Bool) (n : String) (w : WriteOutcome) (now : Nat),
        numberFormatOk n = false ∨ removeSpaces n = "" →
        bp_make_call s so n w now = (s, false))
    ∧ (∀ (s : BaresipProcess) (n : String) (now : Nat),
        s.running = true → s.phone_line.state ≠ .idle →
        numberFormatOk n = true → removeSpaces n ≠ "" →
        bp_make_call s true n .ok now
          = ({ s with current_call_id := some (removeSpaces n) }, false))
    ∧ (∀ (s : BaresipProcess) (so : Bool) (n : String) (now : Nat),
        (bp_make_call s so n .ok now).2 = true →
        (bp_make_call s so n .ok now).1.phone_line.state = .dialing
        ∧ (bp_make_call s so n .ok now).1.current_call_id = some (removeSpaces n)) :=
  ⟨bp_not_ok, bp_reject_invalid, bp_rejected_dial, bp_success⟩

/-- C4 witness: a broken-pipe write on the fresh supervisor fails without
setting a correlation id, and a rejected dial on the busy supervisor leaves
the id set, both evaluated concretely. -/
theorem c4_make_call_ordering_witness :
    ((bp_make_call sampleIdle true "123" .brokenPipe 0).2 = false
      ∧ (bp_make_call sampleIdle true "123" .brokenPipe 0).1.current_call_id
          = sampleIdle.current_call_id)
    ∧ bp_make_call sampleBusy true "123" .ok 0
        = ({ sampleBusy with current_call_id := some (removeSpaces "123") }, false) :=
  ⟨c4_make_call_ordering.1 sampleIdle true "123" .brokenPipe 0 (by decide),
   c4_make_call_ordering.2.2.1 sampleBusy "123" 0 (by decide) (by decide) (by decide)
     (by decide)⟩

/-- C6: dial succeeds only from Idle with a nonempty, non-blank number, in
which case it records the number and moves to Dialing; from any other state,
or with a blank number, it fails and changes nothing; hence a second dial
with no intervening reset fails and changes nothing. -/
theorem c6_dial_contract :
    (∀ (l : PhoneLine) (n : String), l.state = .idle → n ≠ "" → pyStrip n ≠ "" →
      dial l n = ({ l with remote_number := some n, state := .dialing }, true))
    ∧ (∀ (l : PhoneLine) (n : String), l.state ≠ .idle → dial l n = (l, false))
    ∧ (∀ (l : PhoneLine) (n : String), pyStrip n = "" → dial l n = (l, false))
    ∧ (∀ (l : PhoneLine) (n m : String), (dial l n).2 = true →
        dial (dial l n).1 m = ((dial l n).1, false)) := by
  refine ⟨dial_success, dial_fail_not_idle, dial_fail_blank, ?_⟩
  intro l n m h
  refine dial_fail_not_idle _ _ ?_
  rw [dial_state_after_success l n h]
  decide

/-- C6 witness: a concrete successful dial from Idle and the failure of an
immediate second dial. -/
theorem c6_dial_contract_witness :
    dial (initLine 3 0) "+15551234567"
      = ({ initLine 3 0 with remote_number := some "+15551234567", state := .dialing },
        true)
    ∧ dial (dial (initLine 3 0) "+15551234567").1 "5550000"
      = ((dial (initLine 3 0) "+15551234567").1, false) :=
  ⟨c6_dial_contract.1 (initLine 3 0) "+15551234567" (by decide) (by decide) (by decide),
   c6_dial_contract.2.2.2 (initLine 3 0) "+15551234567" "5550000" (by decide)⟩

/-- C7 counterexample: the allow-list regex includes every whitespace
character, so make_call accepts and dials a number containing a tab, which
does not consist of digits, the four symbols and spaces as the claim
states. -/
theorem c7_counterexample :
    (bp_make_call sampleIdle true "1\t" .ok 0).2 = true
    ∧ claimedNumberPattern "1\t" = false := by
  decide

/-- C7 amended: make_call accepts a number only if it is nonempty, every
character is a digit, one of + - * #, or a whitespace character (the source
regex admits whitespace anywhere, including tabs and newlines, not only
internal spaces), and it stays nonempty after removing space characters;
every number rejected by these checks makes make_call return failure with
the supervisor and line unchanged. -/
theorem c7_number_validation :
    (∀ (s : BaresipProcess) (so : Bool) (n : String) (w : WriteOutcome) (now : Nat),
      (bp_make_call s so n w now).2 = true →
      numberFormatOk n = true ∧ removeSpaces n ≠ "")
    ∧ (∀ n : String, numberFormatOk n = true ↔
        (n ≠ "" ∧ ∀ c ∈ n.data, numberCharAllowed c = true))
    ∧ (∀ (s : BaresipProcess) (so : Bool) (n : String) (w : WriteOutcome) (now : Nat),
        numberFormatOk n = false ∨ removeSpaces n = "" →
        bp_make_call s so n w now = (s, false)) := by
  refine ⟨?_, ?_, bp_reject_invalid⟩
  · intro s so n w now h
    obtain ⟨_, _, h3, h4, _, _⟩ := bp_snd_true s so n w now h
    exact ⟨h3, h4⟩
  · intro n
    simp [numberFormatOk, List.all_eq_true]

/-- C7 witness: a number containing a letter is rejected with the supervisor
unchanged, evaluated concretely. -/
theorem c7_number_validation_witness :
    bp_make_call sampleIdle true "abc" .ok 0 = (sampleIdle, false) :=
  c7_number_validation.2.2 sampleIdle true "abc" .ok 0 (by decide)

/-- C8 counterexample: update_routing checks the running flag first, so on a
stopped router a channel-0 request for a valid line id returns failure —
channel 0 does not always succeed as claimed. -/
theorem c8_counterexample :
    stoppedRouter.is_running = false ∧ (update_routing stoppedRouter 1 0).2 = false :=
  ⟨rfl, rfl⟩

/-- C8 amended: while the router is running, a channel-0 request for a line
in 1..8 succeeds and records 0 for that line; any in-range request records
the new channel for that line only, leaving every other line entry and the
rest of the router unchanged, so the map reflects the last call per line; a
request with a line id outside 1..8 or a channel above num_outputs is
rejected with the router unchanged. -/
theorem c8_update_routing :
    (∀ (r : AudioRouter) (i : Nat), r.is_running = true → 1 ≤ i → i ≤ 8 →
      (update_routing r i 0).2 = true ∧ get_routing (update_routing r i 0).1 i = some 0)
    ∧ (∀ (r : AudioRouter) (i c : Nat), r.is_running = true → 1 ≤ i → i ≤ 8 →
        c ≤ r.num_outputs →
        (update_routing r i c).2 = true
        ∧ get_routing (update_routing r i c).1 i = some c
        ∧ (∀ j : Nat, j ≠ i → get_routing (update_routing r i c).1 j = get_routing r j)
        ∧ (update_routing r i c).1.is_running = r.is_running
        ∧ (update_routing r i c).1.num_outputs = r.num_outputs)
    ∧ (∀ (r : AudioRouter) (i c : Nat), ¬ (1 ≤ i ∧ i ≤ 8) ∨ r.num_outputs < c →
        update_routing r i c = (r, false)) := by
  have key : ∀ (r : AudioRouter) (i c : Nat), r.is_running = true → 1 ≤ i → i ≤ 8 →
      c ≤ r.num_outputs →
      update_routing r i c = ({ r with routing_map := mapInsert r.routing_map i c }, true) := by
    intro r i c hr h1 h2 hc
    rw [update_routing, if_neg (by simp [hr]), if_neg (by simp [h1, h2]), if_neg (by simp [hc])]
  refine ⟨?_, ?_, ?_⟩
  · intro r i hr h1 h2
    rw [key r i 0 hr h1 h2 (Nat.zero_le _)]
    exact ⟨rfl, by simp [get_routing, mapInsert]⟩
  · intro r i c hr h1 h2 hc
    rw [key r i c hr h1 h2 hc]
    refine ⟨rfl, by simp [get_routing, mapInsert], ?_, rfl, rfl⟩
    intro j hj
    simp [get_routing, mapInsert, hj]
  · intro r i c h
    rw [update_routing]
    by_cases hr : r.is_running = false
    · rw [if_pos hr]
    · rw [if_neg hr]
      by_cases hrange : 1 ≤ i ∧ i ≤ 8
      · rcases h with h | h
        · exact absurd hrange h
        · rw [if_neg (not_not_intro hrange), if_pos (by omega)]
      · rw [if_pos hrange]

/-- C8 witness: on the running router, clearing line 1 succeeds and records
channel 0 while leaving line 2 untouched. -/
theorem c8_update_routing_witness :
    (update_routing runningRouter 1 0).2 = true
    ∧ get_routing (update_routing runningRouter 1 0).1 1 = some 0 :=
  c8_update_routing.1 runningRouter 1 rfl (by decide) (by decide)

/-- C9: reset always lands on Idle with RemoteNumber, CallStartedAt and the
call id cleared; from an active-call state it first passes through
Disconnecting; on an already-Idle line with cleared call fields it is a
no-op; and resetting twice equals resetting once. -/
theorem c9_reset_idempotent :
    (∀ (l : PhoneLine) (now : Nat),
      (reset l now).state = .idle
      ∧ (reset l now).remote_number = none
      ∧ (reset l now).call_start_time = none
      ∧ (reset l now).call_id = none)
    ∧ (∀ l : PhoneLine,
        l.state = .dialing ∨ l.state = .ringing ∨ l.state = .connected →
        (reset_phase1 l).state = .disconnected)
    ∧ (∀ (l : PhoneLine) (now : Nat), l.state = .idle → l.call_id = none →
        l.remote_number = none → l.call_start_time = none → reset l now = l)
    ∧ (∀ (l : PhoneLine) (n1 n2 : Nat), reset (reset l n1) n2 = reset l n1) := by
  refine ⟨?_, ?_, reset_of_cleared, reset_idem⟩
  · intro l now
    obtain ⟨hc, hr, hs⟩ := reset_cleared_fields l now
    exact ⟨reset_state_idle l now, hr, hs, hc⟩
  · intro l h
    rw [reset_phase1_active l h]

/-- C9 witness: the first phase of a reset of a concrete Connected line
passes through Disconnecting, and reset of a fresh Idle line is a no-op. -/
theorem c9_reset_idempotent_witness :
    (reset_phase1 sampleBusy.phone_line).state = .disconnected
    ∧ reset (initLine 2 0) 7 = initLine 2 0 :=
  ⟨c9_reset_idempotent.2.1 sampleBusy.phone_line (by decide),
   c9_reset_idempotent.2.2.1 (initLine 2 0) 7 (by decide) (by decide) (by decide) (by decide)⟩

/-- C10: reset preserves the line identity and the assigned audio output
channel; it keeps call_duration untouched when no call start time was set,
and when one was set during a call it finalizes call_duration from it, so
the duration of the last completed call survives until the next call ends. -/
theorem c10_reset_frame :
    (∀ (l : PhoneLine) (now : Nat),
      (reset l now).line_id = l.line_id ∧ (reset l now).audio_output = l.audio_output)
    ∧ (∀ (l : PhoneLine) (now : Nat), l.call_start_time = none →
        (reset l now).call_duration = l.call_duration)
    ∧ (∀ (l : PhoneLine) (now t : Nat), l.call_start_time = some t →
        (l.state = .dialing ∨ l.state = .ringing ∨ l.state = .connected
          ∨ l.state = .disconnected) →
        (reset l now).call_duration = now - t) :=
  ⟨reset_frame, reset_duration_no_call, reset_duration_finalized⟩

/-- C10 witness: resetting a concrete Connected line keeps its channel 3 and
finalizes the duration from the start time, evaluated concretely. -/
theorem c10_reset_frame_witness :
    (reset { initLine 4 3 with
        state := .connected
        remote_number := some "123"
        call_start_time := some 2 } 5).audio_output = 3
    ∧ (reset { initLine 4 3 with
        state := .connected
        remote_number := some "123"
        call_start_time := some 2 } 5).call_duration = 5 - 2 := by
  constructor
  · rw [(c10_reset_frame.1 _ 5).2]
    rfl
  · rw [c10_reset_frame.2.2 _ 5 2 (by decide) (by decide)]

end PhoneSystem
